import Mathlib

/-!
# rsqlite: result-set materialisation

A shallow embedding of `src/rsqlite.c` (the R binding of an embedded SQLite
engine) and the properties of its row assembler, chunked accumulator and
finalizer.

Modelling conventions.

* The SQLite engine and the R runtime are external libraries.  Their calls are
  embedded as small total functions over explicit state; each one carries a doc
  comment naming the API behaviour it stands for.
* A prepared statement is a deterministic script: the result code, the cells
  and the error message of its k-th `sqlite3_step`, for every k.  A script may
  return `SQLITE_ROW` for ever, so the stepping loop of `rsqlite_eval` takes a
  fuel argument and reports `Outcome.timeout` when the fuel is used up.
* R's `error()` does not return: a function that may raise returns a `Run`
  whose outcome is `Outcome.error msg`, and nothing after the raise is executed.
* Every run records the engine and allocation calls it makes, in call order.
* The loop counters `count` and `nrow` (C `int`) are natural numbers: `count`
  stays below `bufsize`, and `nrow` counts rows that are all held in memory.
  The width that matters, the 32-bit read-out `sqlite3_column_int`, is explicit.
* A C `double` is carried as its bit pattern; it is only copied.
-/

namespace Rsqlite

/-! ## Engine constants -/

/-- Modelled from the spec: the engine's success code, `SQLITE_OK` of
`include/sqlite3.h`; the header is not among the sources, the value is the one
the SQLite C API gives it. -/
def SQLITE_OK : Int := 0

/-- Modelled from the spec: an engine error code, `SQLITE_MISUSE` of
`include/sqlite3.h` (value of the SQLite C API). -/
def SQLITE_MISUSE : Int := 21

/-- Modelled from the spec: the code by which advancing the cursor yields a
row, `SQLITE_ROW` of `include/sqlite3.h` (value of the SQLite C API). -/
def SQLITE_ROW : Int := 100

/-- Modelled from the spec: the code by which advancing the cursor signals
exhaustion, `SQLITE_DONE` of `include/sqlite3.h` (value of the SQLite C API). -/
def SQLITE_DONE : Int := 101

/-- Modelled from the spec: the integer type tag, `SQLITE_INTEGER` of
`include/sqlite3.h` (value of the SQLite C API). -/
def SQLITE_INTEGER : Int := 1

/-- Modelled from the spec: the floating-point type tag, `SQLITE_FLOAT` of
`include/sqlite3.h` (value of the SQLite C API). -/
def SQLITE_FLOAT : Int := 2

/-- Modelled from the spec: the text type tag, `SQLITE_TEXT` of
`include/sqlite3.h` (value of the SQLite C API). -/
def SQLITE_TEXT : Int := 3

/-- Modelled from the spec: the blob type tag, `SQLITE_BLOB` of
`include/sqlite3.h` (value of the SQLite C API). -/
def SQLITE_BLOB : Int := 4

/-- Modelled from the spec: the null type tag, `SQLITE_NULL` of
`include/sqlite3.h` (value of the SQLite C API). -/
def SQLITE_NULL : Int := 5

/-! ## Data model -/

/-- A C `double`, carried as its IEEE-754 bit pattern. -/
structure Double where
  bits : Nat
deriving DecidableEq, Repr

/-- One cell of the current row (an engine value): the dynamic type tag that
`sqlite3_column_type` reports, the 64-bit integer content, the floating-point
content and the text content. -/
structure Mem where
  tag : Int
  i : Int
  r : Double
  z : String
deriving DecidableEq, Repr

/-- A compiled statement as a script: column count and names, and for the k-th
call of `sqlite3_step` its result code, the cells of the row it positions the
cursor at, and the error message it leaves on the connection. -/
structure Program where
  ncol : Nat
  name : Nat → String
  rc : Nat → Int
  row : Nat → Nat → Mem
  msg : Nat → String

/-- The prepared statement `sqlite3_stmt`: its program and the number of
`sqlite3_step` calls made so far. -/
structure sqlite3_stmt where
  prog : Program
  pc : Nat

/-- The engine handle `sqlite3`: the current error message, and what
`sqlite3_prepare_v2` does for each SQL text (result code, compiled program if
any, and the error message it leaves). -/
structure sqlite3 where
  errmsg : String
  compile : String → Int × Option Program × String

/-- The `struct connection` of the source (lines 16-20); `db = none` is the
`NULL` handle of a closed connection. -/
structure connection where
  db : Option sqlite3
  bufsize : Int
  name : String

/-- The host value of one field, the four kinds `process_row` allocates:
`NILSXP` (R's `NULL`), `INTSXP`, `REALSXP` and `STRSXP` of length one. -/
inductive SEXP where
  | NILSXP
  | INTSXP (v : Int)
  | REALSXP (v : Double)
  | STRSXP (s : String)
deriving DecidableEq, Repr

/-- The record `process_row` returns: a `VECSXP` of fields with its `names`
attribute. -/
structure Row where
  elts : List SEXP
  names : List String
deriving DecidableEq, Repr

/-- A slot of a chunk or of the result: `none` is `R_NilValue`, the content of
a freshly allocated `VECSXP` slot. -/
abbrev Slot := Option Row

/-- The engine and allocation calls a run makes. -/
inductive Call where
  | prepare
  | allocBuf
  | step
  | finalize
  | errmsg
  | allocRes
deriving DecidableEq, Repr

/-- How a run ends: a returned value, an R error, or the model's fuel used up. -/
inductive Outcome (α : Type) where
  | value (v : α)
  | error (m : String)
  | timeout
deriving DecidableEq, Repr

/-- A run of an interface function: the connection afterwards, the calls made
in order, and how it ended. -/
structure Run (α : Type) where
  conn : connection
  trace : List Call
  outcome : Outcome α

/-! ## R runtime -/

/-- R's `allocVector(VECSXP, n)`: `n` slots holding `R_NilValue`; a negative
length raises an R error. -/
def allocVector (n : Int) : Except String (List Slot) :=
  if n < 0 then .error "negative length vectors are not allowed"
  else .ok (List.replicate n.toNat none)

/-- R's `SET_VECTOR_ELT(x, i, v)` (also `SET_STRING_ELT`): bounds-checked
store. -/
def SET_VECTOR_ELT {α : Type} (x : List α) (i : Nat) (v : α) : Except String (List α) :=
  if i < x.length then .ok (x.set i v)
  else .error "attempt to set index out of bounds in SET_VECTOR_ELT"

/-- R's `VECTOR_ELT(x, i)`: bounds-checked load. -/
def VECTOR_ELT {α : Type} (x : List α) (i : Nat) : Except String α :=
  match x[i]? with
  | some v => .ok v
  | none => .error "attempt to access index out of bounds in VECTOR_ELT"

/-- R's `mkChar` on a C string: the characters before the first NUL. -/
def mkChar (z : String) : String :=
  String.mk (z.data.takeWhile (fun c => c ≠ Char.ofNat 0))

/-! ## Engine calls -/

/-- The engine's `sqlite3_prepare_v2` (the spec's `prepare`): result code,
statement (`NULL` when nothing was compiled) positioned before its first row,
and the handle with the error message the call leaves. -/
def sqlite3_prepare_v2 (h : sqlite3) (zSql : String) : Int × Option sqlite3_stmt × sqlite3 :=
  match h.compile zSql with
  | (rc, p, m) => (rc, p.map (fun q => { prog := q, pc := 0 }), { h with errmsg := m })

/-- The engine's `sqlite3_step` (the spec's `advance`): it returns the
script's next result code, advances the statement and leaves the script's
message on the handle. On a `NULL` statement the SQLite library returns
`SQLITE_MISUSE` and touches nothing. -/
def sqlite3_step (p : Option sqlite3_stmt) (h : sqlite3) : Int × Option sqlite3_stmt × sqlite3 :=
  match p with
  | none => (SQLITE_MISUSE, none, h)
  | some s => (s.prog.rc s.pc, some { s with pc := s.pc + 1 }, { h with errmsg := s.prog.msg s.pc })

/-- The engine's `sqlite3_errmsg`. -/
def sqlite3_errmsg (h : sqlite3) : String := h.errmsg

/-- The engine's `sqlite3_column_count` (0 for a `NULL` statement). -/
def sqlite3_column_count (p : Option sqlite3_stmt) : Nat :=
  match p with
  | none => 0
  | some s => s.prog.ncol

/-- The cell in column `i` of the row the cursor is positioned at, the one
produced by the latest `sqlite3_step`. -/
def columnMem (p : Option sqlite3_stmt) (i : Nat) : Mem :=
  match p with
  | none => { tag := SQLITE_NULL, i := 0, r := ⟨0⟩, z := "" }
  | some s => s.prog.row (s.pc - 1) i

/-- The engine's `sqlite3_column_type`. -/
def sqlite3_column_type (p : Option sqlite3_stmt) (i : Nat) : Int := (columnMem p i).tag

/-- The engine's `sqlite3_column_int`, the read-out `process_row` calls (line
92). Its result is a C `int`, and so is the `INTEGER(field)[0]` it is stored
in: the cell's 64-bit integer converted to `int`, that is its low 32 bits in
two's complement. -/
def sqlite3_column_int (p : Option sqlite3_stmt) (i : Nat) : Int :=
  ((columnMem p i).i + 2 ^ 31) % 2 ^ 32 - 2 ^ 31

/-- The engine's `sqlite3_column_double`. -/
def sqlite3_column_double (p : Option sqlite3_stmt) (i : Nat) : Double := (columnMem p i).r

/-- The engine's `sqlite3_column_text`. -/
def sqlite3_column_text (p : Option sqlite3_stmt) (i : Nat) : String := (columnMem p i).z

/-- The engine's `sqlite3_column_name`. -/
def sqlite3_column_name (p : Option sqlite3_stmt) (i : Nat) : String :=
  match p with
  | none => ""
  | some s => s.prog.name i

/-! ## `process_row` (lines 82-116) -/

/-- The `switch` of `process_row` (lines 89-108): the field allocated for
column `i`. -/
def process_row_field (stmt : Option sqlite3_stmt) (i : Nat) : SEXP :=
  if sqlite3_column_type stmt i = SQLITE_INTEGER then
    SEXP.INTSXP (sqlite3_column_int stmt i)
  else if sqlite3_column_type stmt i = SQLITE_FLOAT then
    SEXP.REALSXP (sqlite3_column_double stmt i)
  else if sqlite3_column_type stmt i = SQLITE_TEXT then
    SEXP.STRSXP (mkChar (sqlite3_column_text stmt i))
  else
    SEXP.NILSXP

/-- The `for` loop of `process_row` (lines 88-112), with `todo` iterations
left (`ncol - i`): store the field and the name of column `i`, then go on. -/
def process_row_loop (stmt : Option sqlite3_stmt) :
    Nat → Nat → List SEXP → List String → Except String (List SEXP × List String)
  | 0, _, row, names => .ok (row, names)
  | todo + 1, i, row, names =>
    match SET_VECTOR_ELT row i (process_row_field stmt i) with
    | .error e => .error e
    | .ok row1 =>
      match SET_VECTOR_ELT names i (mkChar (sqlite3_column_name stmt i)) with
      | .error e => .error e
      | .ok names1 => process_row_loop stmt todo (i + 1) row1 names1

/-- The function `process_row`: allocate the record and the names for
`sqlite3_column_count` columns, fill them, attach the names. -/
def process_row (stmt : Option sqlite3_stmt) : Except String Row :=
  let ncol := sqlite3_column_count stmt
  match process_row_loop stmt ncol 0 (List.replicate ncol SEXP.NILSXP) (List.replicate ncol "") with
  | .error e => .error e
  | .ok (row, names) => .ok { elts := row, names := names }

/-! ## Connection functions (lines 57-65, 144-179) -/

/-- The function `connection_close`; the argument `none` is an `rdb` of type
`NILSXP`, otherwise the struct the external pointer addresses. -/
def connection_close (rdb : Option connection) : Option connection :=
  match rdb with
  | none => none
  | some c => some { c with db := none }

/-- The function `rsqlite_disconnect`. -/
def rsqlite_disconnect (rdb : Option connection) : Option connection :=
  connection_close rdb

/-- The function `rsqlite_dbinfo`: the list `(database_file, buffer_size)`. -/
def rsqlite_dbinfo (c : connection) : Run (String × Int) :=
  match c.db with
  | none => { conn := c, trace := [], outcome := .error "The database connection is closed." }
  | some _ => { conn := c, trace := [], outcome := .value (c.name, c.bufsize) }

/-- The function `rsqlite_dblimit`. -/
def rsqlite_dblimit (c : connection) (limit : Int) : Run Unit :=
  match c.db with
  | none => { conn := c, trace := [], outcome := .error "The database connection is closed." }
  | some _ => { conn := { c with bufsize := limit }, trace := [], outcome := .value () }

/-! ## `rsqlite_eval` (lines 183-231) -/

/-- The variables of the accumulation loop. The chunk chain from `root` to
`tail` is `chain ++ [buf]`: `buf` is the chunk of the last cell, the one being
filled. -/
structure LoopState where
  pStmt : Option sqlite3_stmt
  db : sqlite3
  chain : List (List Slot)
  buf : List Slot
  count : Nat
  nrow : Nat
  trace : List Call

/-- What one pass through the `while` body does: go round again, leave the
loop, or raise an R error. -/
inductive Iter where
  | next (st : LoopState)
  | exit (st : LoopState)
  | raise (m : String) (st : LoopState)

/-- One pass through the body of `while (rc == SQLITE_ROW)` (lines 203-215). -/
def loop_body (bufsize : Int) (st : LoopState) : Iter :=
  match sqlite3_step st.pStmt st.db with
  | (rc, pStmt, db) =>
    let tr := st.trace ++ [Call.step]
    if rc = SQLITE_ROW then
      match process_row pStmt with
      | .error e => .raise e { st with pStmt := pStmt, db := db, trace := tr }
      | .ok row =>
        match SET_VECTOR_ELT st.buf st.count (some row) with
        | .error e => .raise e { st with pStmt := pStmt, db := db, trace := tr }
        | .ok buf =>
          if ((st.count + 1 : Nat) : Int) = bufsize then
            match allocVector bufsize with
            | .error e =>
              .raise e { st with pStmt := pStmt, db := db, buf := buf, count := st.count + 1,
                                 nrow := st.nrow + 1, trace := tr ++ [Call.allocBuf] }
            | .ok fresh =>
              .next { pStmt := pStmt, db := db, chain := st.chain ++ [buf], buf := fresh,
                      count := 0, nrow := st.nrow + 1, trace := tr ++ [Call.allocBuf] }
          else
            .next { st with pStmt := pStmt, db := db, buf := buf, count := st.count + 1,
                            nrow := st.nrow + 1, trace := tr }
    else if rc ≠ SQLITE_DONE then
      .raise (sqlite3_errmsg db)
        { st with pStmt := pStmt, db := db, trace := tr ++ [Call.finalize, Call.errmsg] }
    else
      .exit { st with pStmt := pStmt, db := db, trace := tr }

/-- The `while` loop (lines 202-216): `Iter.next` when the fuel runs out with
the loop still going round, otherwise how the loop was left. -/
def while_loop (bufsize : Int) : Nat → LoopState → Iter
  | 0, st => .next st
  | fuel + 1, st =>
    match loop_body bufsize st with
    | .next st1 => while_loop bufsize fuel st1
    | r => r

/-- The inner `for` loop of the finalizer (lines 223-225), with `todo`
iterations left (`size - i`): copy slot `i` of the chunk to slot `end` of the
result. -/
def copy_chunk (chunk : List Slot) :
    Nat → Nat → List Slot → Nat → Except String (List Slot × Nat)
  | 0, _, res, e => .ok (res, e)
  | todo + 1, i, res, e =>
    match VECTOR_ELT chunk i with
    | .error m => .error m
    | .ok v =>
      match SET_VECTOR_ELT res e v with
      | .error m => .error m
      | .ok res1 => copy_chunk chunk todo (i + 1) res1 (e + 1)

/-- The outer loop of the finalizer (lines 221-227) over the chunk chain: the
last chunk contributes `count` slots, every other one `bufsize`. -/
def flatten_chunks (bufsize : Int) (count : Nat) :
    List (List Slot) → List Slot → Nat → Except String (List Slot × Nat)
  | [], res, e => .ok (res, e)
  | chunk :: rest, res, e =>
    let size := if rest.isEmpty then count else bufsize.toNat
    match copy_chunk chunk size 0 res e with
    | .error m => .error m
    | .ok (res1, e1) => flatten_chunks bufsize count rest res1 e1

/-- The state in which the loop is entered (lines 193-200). -/
def loop_init (pStmt : Option sqlite3_stmt) (db : sqlite3) (buf : List Slot) : LoopState :=
  { pStmt := pStmt, db := db, chain := [], buf := buf, count := 0, nrow := 0,
    trace := [Call.prepare, Call.allocBuf] }

/-- The part of `rsqlite_eval` after the loop (lines 217-230), by how the loop
was left: after a raise nothing more runs; after a normal exit the statement is
finalized, the result is allocated for `nrow` rows (`nrow ≥ 0`, so the
allocation does not raise) and the chain is copied into it. `Iter.next` here
means that the fuel ran out. -/
def eval_after_loop (c : connection) : Iter → Run (List Slot)
  | .next st => { conn := { c with db := some st.db }, trace := st.trace, outcome := .timeout }
  | .raise m st => { conn := { c with db := some st.db }, trace := st.trace, outcome := .error m }
  | .exit st =>
    let tr := st.trace ++ [Call.finalize, Call.allocRes]
    match flatten_chunks c.bufsize st.count (st.chain ++ [st.buf]) (List.replicate st.nrow none) 0 with
    | .error m => { conn := { c with db := some st.db }, trace := tr, outcome := .error m }
    | .ok (res, _) => { conn := { c with db := some st.db }, trace := tr, outcome := .value res }

/-- The function `rsqlite_eval`. The result code of `sqlite3_prepare_v2` is
not looked at (line 191). -/
def rsqlite_eval (fuel : Nat) (c : connection) (zSql : String) : Run (List Slot) :=
  match c.db with
  | none => { conn := c, trace := [], outcome := .error "The database connection is closed." }
  | some h =>
    match sqlite3_prepare_v2 h zSql with
    | (_, pStmt, h1) =>
      match allocVector c.bufsize with
      | .error e =>
        { conn := { c with db := some h1 }, trace := [Call.prepare, Call.allocBuf],
          outcome := .error e }
      | .ok buf => eval_after_loop c (while_loop c.bufsize fuel (loop_init pStmt h1 buf))

/-- The loop variables an iteration result carries. -/
def Iter.state : Iter → LoopState
  | .next st => st
  | .exit st => st
  | .raise _ st => st

/-- The number of rows held by each chunk of the chain, in link order. -/
def chunk_fills (st : LoopState) : List Nat :=
  (st.chain ++ [st.buf]).map (fun ch => (ch.filter Option.isSome).length)

/-! ## Sample engine -/

/-- A sample script with columns `x` and `y`: `n` rows, the `k`-th one
(counted from 0) holding the integer `k + 1` and the text `a`, then the result
code `final` for ever. -/
def sample_prog (n : Nat) (final : Int) : Program where
  ncol := 2
  name := fun j => if j = 0 then "x" else "y"
  rc := fun k => if k < n then SQLITE_ROW else final
  row := fun k j =>
    if j = 0 then { tag := SQLITE_INTEGER, i := k + 1, r := ⟨0⟩, z := "" }
    else { tag := SQLITE_TEXT, i := 0, r := ⟨0⟩, z := "a" }
  msg := fun k =>
    if k < n then "another row available"
    else if final = SQLITE_DONE then "no more rows available"
    else "disk I/O error"

/-- A sample engine handle: it compiles `SELECT x, y FROM t` to the program
`prog` and rejects every other text with a "no such table" message. -/
def sample_db (prog : Program) : sqlite3 where
  errmsg := "not an error"
  compile := fun zSql =>
    if zSql = "SELECT x, y FROM t" then (SQLITE_OK, some prog, "not an error")
    else (1, none, "no such table: nonexistent_table")

/-- An open sample connection with buffer size `bufsize`. -/
def sample_conn (bufsize : Int) (prog : Program) : connection where
  db := some (sample_db prog)
  bufsize := bufsize
  name := "sample.db"

/-- A single-column script of six rows whose column holds SQL NULL in the
third row and an integer in the others: the `k`-th row (counted from 0) holds
NULL for `k = 2` and the integer `k` otherwise. -/
def mixed_prog : Program where
  ncol := 1
  name := fun _ => "v"
  rc := fun k => if k < 6 then SQLITE_ROW else SQLITE_DONE
  row := fun k _ =>
    if k = 2 then { tag := SQLITE_NULL, i := 0, r := ⟨0⟩, z := "" }
    else { tag := SQLITE_INTEGER, i := k, r := ⟨0⟩, z := "" }
  msg := fun _ => "not an error"

/-- A single-column script whose only row holds the integer `v`. -/
def int_prog (v : Int) : Program where
  ncol := 1
  name := fun _ => "v"
  rc := fun k => if k < 1 then SQLITE_ROW else SQLITE_DONE
  row := fun _ _ => { tag := SQLITE_INTEGER, i := v, r := ⟨0⟩, z := "" }
  msg := fun _ => "not an error"

/-! ## Notions used to state the properties -/

/-- The slot holding the record assembled from the `i`-th row the script
emits: what `process_row` returns when the cursor stands on that row, after
`i + 1` steps. -/
def emitted (prog : Program) (i : Nat) : Slot :=
  (process_row (some { prog := prog, pc := i + 1 })).toOption

/-- Invariant of the accumulation loop after `k` rows, for chunk capacity
`cap`: the statement has been stepped `k` times, the chunks before the current
one are full, and the chain holds the `k` assembled rows in emission order. -/
structure Inv (prog : Program) (cap k : Nat) (st : LoopState) : Prop where
  stmt : st.pStmt = some { prog := prog, pc := k }
  nrow : st.nrow = k
  count_lt : st.count < cap
  total : k = st.chain.length * cap + st.count
  buf_len : st.buf.length = cap
  chain_len : ∀ ch ∈ st.chain, ch.length = cap
  content : st.chain.flatten ++ st.buf.take st.count = (List.range k).map (emitted prog)
  allocs : st.trace.count Call.allocBuf = st.chain.length + 1
  steps : st.trace.count Call.step = k
  no_fin : Call.finalize ∉ st.trace

/-! ## Facts about the R runtime calls -/

theorem SET_VECTOR_ELT_of_lt {α : Type} (x : List α) (i : Nat) (v : α) (h : i < x.length) :
    SET_VECTOR_ELT x i v = .ok (x.set i v) := by
  simp [SET_VECTOR_ELT, h]

theorem VECTOR_ELT_of_lt {α : Type} (x : List α) (i : Nat) (h : i < x.length) :
    VECTOR_ELT x i = .ok x[i] := by
  simp [VECTOR_ELT, List.getElem?_eq_getElem h]

/-! ## `process_row` -/

theorem process_row_loop_ok (p : Option sqlite3_stmt) :
    ∀ (todo i : Nat) (row : List SEXP) (names : List String),
      row.length = i + todo → names.length = i + todo →
      ∃ row1 names1, process_row_loop p todo i row names = .ok (row1, names1)
        ∧ row1.length = i + todo ∧ names1.length = i + todo
        ∧ (∀ j, j < i → row1[j]? = row[j]? ∧ names1[j]? = names[j]?)
        ∧ (∀ j, i ≤ j → j < i + todo →
            row1[j]? = some (process_row_field p j)
            ∧ names1[j]? = some (mkChar (sqlite3_column_name p j))) := by
  intro todo
  induction todo with
  | zero =>
    intro i row names hr hn
    exact ⟨row, names, rfl, hr, hn, fun j _ => ⟨rfl, rfl⟩, fun j h1 h2 => by omega⟩
  | succ t ih =>
    intro i row names hr hn
    have h1 : i < row.length := by omega
    have h2 : i < names.length := by omega
    obtain ⟨row1, names1, hloop, hl1, hl2, hold, hnew⟩ :=
      ih (i + 1) (row.set i (process_row_field p i))
        (names.set i (mkChar (sqlite3_column_name p i)))
        (by simp; omega) (by simp; omega)
    refine ⟨row1, names1, ?_, by omega, by omega, ?_, ?_⟩
    · simp only [process_row_loop, SET_VECTOR_ELT_of_lt _ _ _ h1, SET_VECTOR_ELT_of_lt _ _ _ h2]
      exact hloop
    · intro j hj
      obtain ⟨a, b⟩ := hold j (by omega)
      have hne : i ≠ j := by omega
      rw [a, b, List.getElem?_set_ne hne, List.getElem?_set_ne hne]
      exact ⟨rfl, rfl⟩
    · intro j hj1 hj2
      by_cases hij : j = i
      · subst hij
        obtain ⟨a, b⟩ := hold j (by omega)
        rw [a, b]
        simp [List.getElem?_set, h1, h2]
      · exact hnew j (by omega) (by omega)

theorem process_row_ok (p : Option sqlite3_stmt) :
    ∃ r, process_row p = .ok r
      ∧ r.elts.length = sqlite3_column_count p ∧ r.names.length = sqlite3_column_count p
      ∧ ∀ j, j < sqlite3_column_count p →
          r.elts[j]? = some (process_row_field p j)
          ∧ r.names[j]? = some (mkChar (sqlite3_column_name p j)) := by
  obtain ⟨row1, names1, hloop, hl1, hl2, _, hnew⟩ :=
    process_row_loop_ok p (sqlite3_column_count p) 0
      (List.replicate (sqlite3_column_count p) SEXP.NILSXP)
      (List.replicate (sqlite3_column_count p) "") (by simp) (by simp)
  refine ⟨{ elts := row1, names := names1 }, ?_, by simpa using hl1, by simpa using hl2, ?_⟩
  · simp only [process_row, hloop]
  · intro j hj
    exact hnew j (Nat.zero_le j) (by omega)

/-! ## The accumulation loop -/

theorem take_set_succ {α : Type} (l : List α) (n : Nat) (a : α) (h : n < l.length) :
    (l.set n a).take (n + 1) = l.take n ++ [a] := by
  rw [List.take_succ, List.getElem?_set_self (by simpa using h), List.set_take,
    List.set_eq_of_length_le (by simp)]
  rfl

theorem loop_body_row (prog : Program) (cap k : Nat) (st : LoopState)
    (hinv : Inv prog cap k st) (hrc : prog.rc k = SQLITE_ROW) :
    ∃ st1, loop_body (cap : Int) st = Iter.next st1 ∧ Inv prog cap (k + 1) st1 := by
  obtain ⟨pStmt, db, chain, buf, count, nrow, trace⟩ := st
  obtain ⟨h1, h2, h3, h4, h5, h6, h7, h8, h9, h10⟩ := hinv
  simp only at h1 h2 h3 h4 h5 h6 h7 h8 h9 h10
  have h2s := h2.symm
  subst h1 h2s
  obtain ⟨r, hr, -⟩ := process_row_ok (some { prog := prog, pc := k + 1 })
  have hem : emitted prog k = some r := by simp [emitted, hr, Except.toOption]
  have hset := SET_VECTOR_ELT_of_lt buf count (some r) (by omega)
  have hcontent : chain.flatten ++ (buf.set count (some r)).take (count + 1)
      = (List.range (k + 1)).map (emitted prog) := by
    rw [take_set_succ buf count (some r) (by omega), List.range_succ, List.map_append,
      ← h7, List.append_assoc]
    simp [hem]
  by_cases hfull : count + 1 = cap
  · have hc : ((count + 1 : Nat) : Int) = (cap : Int) := by exact_mod_cast hfull
    have hneg : ¬ ((cap : Int) < 0) := by omega
    refine ⟨{ pStmt := some { prog := prog, pc := k + 1 },
              db := { db with errmsg := prog.msg k },
              chain := chain ++ [buf.set count (some r)],
              buf := List.replicate cap none, count := 0, nrow := k + 1,
              trace := trace ++ [Call.step] ++ [Call.allocBuf] }, ?_, ?_⟩
    · simp only [loop_body, sqlite3_step, hrc, if_true, hr, hset, hc, allocVector, if_neg hneg]
      simp
    · refine ⟨rfl, rfl, by simp only; omega, ?_, by simp, ?_, ?_, ?_, ?_, ?_⟩
      · simp only [List.length_append, List.length_singleton, Nat.add_mul, Nat.one_mul]
        omega
      · intro ch hch
        simp only [List.mem_append, List.mem_singleton] at hch
        rcases hch with hch | hch
        · exact h6 ch hch
        · subst hch
          simpa using h5
      · have hwhole : (buf.set count (some r)).take (count + 1) = buf.set count (some r) :=
          List.take_of_length_le (by simp; omega)
        rw [hwhole] at hcontent
        simpa using hcontent
      · simp [h8]
      · simp [h9]
      · simp [h10]
  · have hc : ¬ ((count + 1 : Nat) : Int) = (cap : Int) := by exact_mod_cast hfull
    refine ⟨{ pStmt := some { prog := prog, pc := k + 1 },
              db := { db with errmsg := prog.msg k },
              chain := chain, buf := buf.set count (some r), count := count + 1, nrow := k + 1,
              trace := trace ++ [Call.step] }, ?_, ?_⟩
    · simp only [loop_body, sqlite3_step, hrc, if_true, hr, hset, hc]
      simp
    · refine ⟨rfl, rfl, by simp only; omega, by simp only; omega, by simpa using h5, h6,
        hcontent, ?_, ?_, ?_⟩
      · simp [h8]
      · simp [h9]
      · simp [h10]

theorem loop_body_done (bufsize : Int) (st : LoopState) (prog : Program) (k : Nat)
    (hstmt : st.pStmt = some { prog := prog, pc := k }) (hrc : prog.rc k = SQLITE_DONE) :
    loop_body bufsize st =
      Iter.exit { st with pStmt := some { prog := prog, pc := k + 1 },
                          db := { st.db with errmsg := prog.msg k },
                          trace := st.trace ++ [Call.step] } := by
  simp [loop_body, sqlite3_step, hstmt, hrc, SQLITE_DONE, SQLITE_ROW]

theorem loop_body_error (bufsize : Int) (st : LoopState) (prog : Program) (k : Nat)
    (hstmt : st.pStmt = some { prog := prog, pc := k })
    (hrow : prog.rc k ≠ SQLITE_ROW) (hdone : prog.rc k ≠ SQLITE_DONE) :
    loop_body bufsize st =
      Iter.raise (prog.msg k)
        { st with pStmt := some { prog := prog, pc := k + 1 },
                  db := { st.db with errmsg := prog.msg k },
                  trace := st.trace ++ [Call.step] ++ [Call.finalize, Call.errmsg] } := by
  simp [loop_body, sqlite3_step, hstmt, hrow, hdone, sqlite3_errmsg]

theorem loop_body_null (bufsize : Int) (st : LoopState) (hstmt : st.pStmt = none) :
    loop_body bufsize st =
      Iter.raise st.db.errmsg
        { st with trace := st.trace ++ [Call.step] ++ [Call.finalize, Call.errmsg] } := by
  obtain ⟨pStmt, db, chain, buf, count, nrow, trace⟩ := st
  simp only at hstmt
  subst hstmt
  simp [loop_body, sqlite3_step, sqlite3_errmsg, SQLITE_MISUSE, SQLITE_ROW, SQLITE_DONE]

theorem while_loop_rows (prog : Program) (cap : Nat) :
    ∀ (f j : Nat) (st : LoopState), Inv prog cap j st →
      (∀ i, j ≤ i → i < j + f → prog.rc i = SQLITE_ROW) →
      ∃ st1, Inv prog cap (j + f) st1 ∧
        ∀ extra, while_loop (cap : Int) (f + extra) st = while_loop (cap : Int) extra st1 := by
  intro f
  induction f with
  | zero =>
    intro j st hinv _
    exact ⟨st, hinv, fun extra => by simp⟩
  | succ f ih =>
    intro j st hinv hrows
    obtain ⟨st1, hbody, hinv1⟩ := loop_body_row prog cap j st hinv (hrows j (le_refl j) (by omega))
    obtain ⟨st2, hinv2, hrun⟩ := ih (j + 1) st1 hinv1 (fun i h1 h2 => hrows i (by omega) (by omega))
    refine ⟨st2, ?_, ?_⟩
    · have : j + (f + 1) = j + 1 + f := by omega
      rw [this]
      exact hinv2
    · intro extra
      have : f + 1 + extra = (f + extra) + 1 := by omega
      rw [this]
      simp only [while_loop, hbody]
      exact hrun extra

theorem inv_init (prog : Program) (cap : Nat) (hcap : 1 ≤ cap) (db : sqlite3) :
    Inv prog cap 0 (loop_init (some { prog := prog, pc := 0 }) db (List.replicate cap none)) := by
  refine ⟨rfl, rfl, by simp only [loop_init]; omega, by simp [loop_init], by simp [loop_init],
    by simp [loop_init], by simp [loop_init], by simp [loop_init], by simp [loop_init],
    by simp [loop_init]⟩

/-! ## The finalizer -/

theorem copy_chunk_spec (chunk : List Slot) :
    ∀ (todo i : Nat) (pre mid post : List Slot) (e : Nat),
      e = pre.length → mid.length = todo → i + todo ≤ chunk.length →
      copy_chunk chunk todo i (pre ++ mid ++ post) e
        = .ok (pre ++ (chunk.drop i).take todo ++ post, e + todo) := by
  intro todo
  induction todo with
  | zero =>
    intro i pre mid post e _ hmid _
    have : mid = [] := List.length_eq_zero.mp hmid
    subst this
    simp [copy_chunk]
  | succ t ih =>
    intro i pre mid post e he hmid hlen
    match mid, hmid with
    | m :: mid1, hmid =>
      have hi : i < chunk.length := by omega
      have hset : SET_VECTOR_ELT (pre ++ m :: mid1 ++ post) e chunk[i]
          = .ok ((pre ++ [chunk[i]]) ++ mid1 ++ post) := by
        rw [SET_VECTOR_ELT_of_lt _ _ _ (by simp; omega)]
        subst he
        simp
      have hrec := ih (i + 1) (pre ++ [chunk[i]]) mid1 post (e + 1) (by simp; omega)
        (by simpa using hmid) (by omega)
      simp only [copy_chunk, VECTOR_ELT_of_lt chunk i hi, hset, hrec]
      have hidx : e + 1 + t = e + (t + 1) := by omega
      rw [List.drop_eq_getElem_cons hi, List.take_succ_cons, hidx]
      simp

theorem flatten_chunks_spec (cap count : Nat) (buf : List Slot) (hcount : count ≤ buf.length) :
    ∀ (chain : List (List Slot)) (pre mid post : List Slot) (e : Nat),
      e = pre.length → (∀ ch ∈ chain, ch.length = cap) →
      mid.length = chain.length * cap + count →
      flatten_chunks (cap : Int) count (chain ++ [buf]) (pre ++ mid ++ post) e
        = .ok (pre ++ (chain.flatten ++ buf.take count) ++ post, e + mid.length) := by
  intro chain
  induction chain with
  | nil =>
    intro pre mid post e he _ hmid
    have hmid1 : mid.length = count := by simpa using hmid
    have hcopy := copy_chunk_spec buf count 0 pre mid post e he hmid1 (by omega)
    simp only [List.nil_append, flatten_chunks, List.isEmpty_nil, if_true, hcopy]
    simp [hmid1]
  | cons ch chain ih =>
    intro pre mid post e he hall hmid
    have hch : ch.length = cap := hall ch (List.mem_cons_self ch chain)
    have hmid1 : mid.length = cap + (chain.length * cap + count) := by
      simp only [List.length_cons, Nat.add_mul, Nat.one_mul] at hmid
      omega
    have hsplit : pre ++ mid ++ post = pre ++ mid.take cap ++ (mid.drop cap ++ post) := by
      nth_rewrite 1 [← List.take_append_drop cap mid]
      simp only [List.append_assoc]
    have hcopy := copy_chunk_spec ch cap 0 pre (mid.take cap) (mid.drop cap ++ post) e he
      (by simp; omega) (by omega)
    have hwhole : (ch.drop 0).take cap = ch := by
      simp [List.take_of_length_le (le_of_eq hch)]
    rw [hwhole] at hcopy
    have hrec := ih (pre ++ ch) (mid.drop cap) post (e + cap) (by simp; omega)
      (fun c hc => hall c (List.mem_cons_of_mem ch hc)) (by simp; omega)
    have hne : (chain ++ [buf]).isEmpty = false := by
      cases chain <;> rfl
    rw [List.cons_append, flatten_chunks]
    simp only [hne, Bool.false_eq_true, if_false, Int.toNat_ofNat]
    rw [hsplit, hcopy]
    simp only
    rw [← List.append_assoc, hrec]
    simp
    omega

/-! ## Runs of `rsqlite_eval` -/

theorem eval_open (fuel : Nat) (c : connection) (h : sqlite3) (zSql : String) (rc0 : Int)
    (p : Option Program) (m : String) (C : Nat)
    (hopen : c.db = some h) (hprep : h.compile zSql = (rc0, p, m))
    (hbuf : c.bufsize = (C : Int)) :
    rsqlite_eval fuel c zSql =
      eval_after_loop c (while_loop (C : Int) fuel
        (loop_init (p.map (fun q => { prog := q, pc := 0 })) { h with errmsg := m }
          (List.replicate C none))) := by
  have hneg : ¬ ((C : Int) < 0) := by omega
  simp [rsqlite_eval, hopen, sqlite3_prepare_v2, hprep, hbuf, allocVector, hneg]

theorem eval_reach (c : connection) (h : sqlite3) (zSql : String) (rc0 : Int)
    (prog : Program) (m : String) (C n fuel : Nat)
    (hopen : c.db = some h) (hprep : h.compile zSql = (rc0, some prog, m))
    (hC : 1 ≤ C) (hbuf : c.bufsize = (C : Int))
    (hrows : ∀ i, i < n → prog.rc i = SQLITE_ROW) (hlast : prog.rc n ≠ SQLITE_ROW)
    (hfuel : n < fuel) :
    ∃ st, Inv prog C n st ∧
      rsqlite_eval fuel c zSql = eval_after_loop c (loop_body (C : Int) st) := by
  obtain ⟨st, hinv, hrun⟩ := while_loop_rows prog C n 0 _ (inv_init prog C hC { h with errmsg := m })
    (fun i _ hi => hrows i (by omega))
  rw [Nat.zero_add] at hinv
  refine ⟨st, hinv, ?_⟩
  obtain ⟨extra, rfl⟩ : ∃ extra, fuel = n + (extra + 1) := ⟨fuel - n - 1, by omega⟩
  rw [eval_open (n + (extra + 1)) c h zSql rc0 (some prog) m C hopen hprep hbuf]
  simp only [Option.map_some']
  rw [hrun (extra + 1)]
  by_cases hdone : prog.rc n = SQLITE_DONE
  · simp only [while_loop, loop_body_done (C : Int) st prog n hinv.stmt hdone]
  · simp only [while_loop, loop_body_error (C : Int) st prog n hinv.stmt hlast hdone]

theorem eval_done (c : connection) (h : sqlite3) (zSql : String) (rc0 : Int)
    (prog : Program) (m : String) (C n fuel : Nat)
    (hopen : c.db = some h) (hprep : h.compile zSql = (rc0, some prog, m))
    (hC : 1 ≤ C) (hbuf : c.bufsize = (C : Int))
    (hrows : ∀ i, i < n → prog.rc i = SQLITE_ROW) (hdone : prog.rc n = SQLITE_DONE)
    (hfuel : n < fuel) :
    ∃ st, Inv prog C n st ∧
      (rsqlite_eval fuel c zSql).trace = st.trace ++ [Call.step] ++ [Call.finalize, Call.allocRes] ∧
      (rsqlite_eval fuel c zSql).outcome = Outcome.value ((List.range n).map (emitted prog)) := by
  have hlast : prog.rc n ≠ SQLITE_ROW := by rw [hdone]; decide
  obtain ⟨st, hinv, hrun⟩ := eval_reach c h zSql rc0 prog m C n fuel hopen hprep hC hbuf hrows hlast hfuel
  refine ⟨st, hinv, ?_⟩
  have hflat := flatten_chunks_spec C st.count st.buf (by have := hinv.count_lt; have := hinv.buf_len; omega)
    st.chain [] (List.replicate n none) [] 0 rfl hinv.chain_len (by simpa using hinv.total)
  simp only [List.nil_append, List.append_nil, hinv.content, List.length_replicate, Nat.zero_add] at hflat
  rw [hrun, loop_body_done (C : Int) st prog n hinv.stmt hdone]
  simp [eval_after_loop, hbuf, hinv.nrow, hflat]

/-- The spec's scenario evaluated: `SELECT 1 AS x, 'a' AS y` with capacity 2
gives the one record `x = Integer 1, y = Text a`. -/
theorem scenario_one_row :
    (rsqlite_eval 2 (sample_conn 2 (sample_prog 1 SQLITE_DONE)) "SELECT x, y FROM t").outcome
      = Outcome.value [some { elts := [SEXP.INTSXP 1, SEXP.STRSXP "a"], names := ["x", "y"] }] := by
  decide

theorem mkChar_of_no_nul (z : String) (hz : ∀ ch ∈ z.data, ch ≠ Char.ofNat 0) : mkChar z = z := by
  have htake : z.data.takeWhile (fun ch => decide (ch ≠ Char.ofNat 0)) = z.data := by
    rw [List.takeWhile_eq_self_iff]
    intro ch hch
    simpa using hz ch hch
  unfold mkChar
  rw [htake]

/-- C3: for every statement and column, whatever tag the cell carries, the
coercion of `process_row` yields one host value whose kind is fixed by that
tag alone: `SQLITE_INTEGER` gives an `INTSXP`, `SQLITE_FLOAT` a `REALSXP`,
`SQLITE_TEXT` a `STRSXP`, and every other tag (among them `SQLITE_NULL` and
`SQLITE_BLOB`) gives `NILSXP`; `process_row` never fails and stores that value
in the column's field. The tag is read per row: in `mixed_prog` the same
column is `NILSXP` in row 3 and an `INTSXP` in row 5. -/
theorem C3_type_mapping_total (p : Option sqlite3_stmt) (i : Nat) :
    (∃ r, process_row p = .ok r ∧
      (i < sqlite3_column_count p → r.elts[i]? = some (process_row_field p i))) ∧
    ((sqlite3_column_type p i = SQLITE_INTEGER ∧
        process_row_field p i = SEXP.INTSXP (sqlite3_column_int p i)) ∨
     (sqlite3_column_type p i = SQLITE_FLOAT ∧
        process_row_field p i = SEXP.REALSXP (sqlite3_column_double p i)) ∨
     (sqlite3_column_type p i = SQLITE_TEXT ∧
        process_row_field p i = SEXP.STRSXP (mkChar (sqlite3_column_text p i))) ∨
     (sqlite3_column_type p i ≠ SQLITE_INTEGER ∧ sqlite3_column_type p i ≠ SQLITE_FLOAT ∧
        sqlite3_column_type p i ≠ SQLITE_TEXT ∧ process_row_field p i = SEXP.NILSXP)) ∧
    (sqlite3_column_type p i = SQLITE_NULL → process_row_field p i = SEXP.NILSXP) ∧
    (sqlite3_column_type p i = SQLITE_BLOB → process_row_field p i = SEXP.NILSXP) ∧
    (process_row (some { prog := mixed_prog, pc := 3 })
        = .ok { elts := [SEXP.NILSXP], names := ["v"] } ∧
     process_row (some { prog := mixed_prog, pc := 5 })
        = .ok { elts := [SEXP.INTSXP 4], names := ["v"] }) := by
  refine ⟨?_, ?_, ?_, ?_, rfl, rfl⟩
  · obtain ⟨r, hr, -, -, hfields⟩ := process_row_ok p
    exact ⟨r, hr, fun hi => (hfields i hi).1⟩
  · by_cases h1 : sqlite3_column_type p i = SQLITE_INTEGER
    · exact Or.inl ⟨h1, by unfold process_row_field; rw [if_pos h1]⟩
    · by_cases h2 : sqlite3_column_type p i = SQLITE_FLOAT
      · exact Or.inr (Or.inl ⟨h2, by unfold process_row_field; rw [if_neg h1, if_pos h2]⟩)
      · by_cases h3 : sqlite3_column_type p i = SQLITE_TEXT
        · exact Or.inr (Or.inr (Or.inl
            ⟨h3, by unfold process_row_field; rw [if_neg h1, if_neg h2, if_pos h3]⟩))
        · exact Or.inr (Or.inr (Or.inr
            ⟨h1, h2, h3, by unfold process_row_field; rw [if_neg h1, if_neg h2, if_neg h3]⟩))
  · intro h
    simp [process_row_field, h, SQLITE_NULL, SQLITE_INTEGER, SQLITE_FLOAT, SQLITE_TEXT]
  · intro h
    simp [process_row_field, h, SQLITE_BLOB, SQLITE_INTEGER, SQLITE_FLOAT, SQLITE_TEXT]

/-- C4 as the code has it: for a cell with the integer tag holding `v`,
`process_row` produces `INTSXP w` where `w` is the 32-bit read-out of `v`
(`sqlite3_column_int`): `w` lies in the signed 32-bit range, differs from `v`
by a multiple of `2 ^ 32`, and equals `v` exactly when `v` itself lies in the
signed 32-bit range. -/
theorem C4_integer_readout_is_32_bit (p : Option sqlite3_stmt) (i : Nat) (v : Int)
    (htag : sqlite3_column_type p i = SQLITE_INTEGER) (hval : (columnMem p i).i = v) :
    ∃ w, process_row_field p i = SEXP.INTSXP w ∧
      -2 ^ 31 ≤ w ∧ w < 2 ^ 31 ∧ (w - v) % 2 ^ 32 = 0 ∧
      (w = v ↔ (-2 ^ 31 ≤ v ∧ v < 2 ^ 31)) := by
  refine ⟨sqlite3_column_int p i, by simp [process_row_field, htag], ?_⟩
  simp only [sqlite3_column_int, hval]
  refine ⟨by omega, by omega, by omega, ?_⟩
  constructor
  · intro h
    omega
  · intro h
    omega

/-- Witness of C4: the integer 7 in the first row of a one-column result. -/
theorem C4_witness :
    sqlite3_column_type (some { prog := int_prog 7, pc := 1 }) 0 = SQLITE_INTEGER ∧
    (columnMem (some { prog := int_prog 7, pc := 1 }) 0).i = 7 ∧
    ∃ w, process_row_field (some { prog := int_prog 7, pc := 1 }) 0 = SEXP.INTSXP w ∧
      -2 ^ 31 ≤ w ∧ w < 2 ^ 31 ∧ (w - 7) % 2 ^ 32 = 0 ∧
      (w = 7 ↔ (-2 ^ 31 ≤ (7 : Int) ∧ (7 : Int) < 2 ^ 31)) :=
  ⟨by decide, by decide,
    C4_integer_readout_is_32_bit (some { prog := int_prog 7, pc := 1 }) 0 7 (by decide)
      (by decide)⟩

/-- Counterexample to C4 as stated: a cell with the integer tag holding
`2 ^ 31 = 2147483648`, a value of the signed 64-bit range, is returned by
`process_row` as `INTSXP (-2147483648)`, not as `INTSXP 2147483648`. -/
theorem C4_counterexample :
    sqlite3_column_type (some { prog := int_prog 2147483648, pc := 1 }) 0 = SQLITE_INTEGER ∧
    (columnMem (some { prog := int_prog 2147483648, pc := 1 }) 0).i = 2147483648 ∧
    -2 ^ 63 ≤ (2147483648 : Int) ∧ (2147483648 : Int) < 2 ^ 63 ∧
    process_row (some { prog := int_prog 2147483648, pc := 1 })
      = .ok { elts := [SEXP.INTSXP (-2147483648)], names := ["v"] } ∧
    process_row_field (some { prog := int_prog 2147483648, pc := 1 }) 0
      ≠ SEXP.INTSXP 2147483648 :=
  ⟨by decide, by decide, by decide, by decide, rfl, by decide⟩

/-- C5: for a cursor standing on a row of a statement with `m = prog.ncol`
columns, `process_row` returns a record with exactly `m` fields and `m` names
in which, for every `i < m`, the name at `i` is the C string of
`sqlite3_column_name i` (the name itself when it has no NUL character) and
the field at `i` is the coercion of cell `i`; the field count `prog.ncol` does
not depend on the row the cursor stands on. -/
theorem C5_row_assembly (prog : Program) (k : Nat) :
    ∃ r, process_row (some { prog := prog, pc := k }) = .ok r ∧
      r.elts.length = prog.ncol ∧ r.names.length = prog.ncol ∧
      ∀ i, i < prog.ncol →
        r.names[i]? = some (mkChar (prog.name i)) ∧
        ((∀ ch ∈ (prog.name i).data, ch ≠ Char.ofNat 0) → r.names[i]? = some (prog.name i)) ∧
        r.elts[i]? = some (process_row_field (some { prog := prog, pc := k }) i) := by
  obtain ⟨r, hr, hl1, hl2, hfields⟩ := process_row_ok (some { prog := prog, pc := k })
  refine ⟨r, hr, hl1, hl2, ?_⟩
  intro i hi
  obtain ⟨hf, hn⟩ := hfields i hi
  refine ⟨hn, ?_, hf⟩
  intro hz
  rw [hn]
  simp only [sqlite3_column_name, mkChar_of_no_nul _ hz]

/-! ## C6, C10: chunks -/

theorem chain_length_eq_div (prog : Program) (C k : Nat) (st : LoopState)
    (hinv : Inv prog C k st) : st.chain.length = k / C ∧ st.count = k % C := by
  have htotal := hinv.total
  have hlt := hinv.count_lt
  have hpos : 0 < C := by omega
  have hk : k = st.count + C * st.chain.length := by rw [Nat.mul_comm]; omega
  constructor
  · rw [hk, Nat.add_mul_div_left _ _ hpos, Nat.div_eq_of_lt hlt, Nat.zero_add]
  · rw [hk, Nat.add_mul_mod_self_left, Nat.mod_eq_of_lt hlt]

theorem ceil_div_of_not_dvd (C n : Nat) (hC : 0 < C) (h : n % C ≠ 0) :
    (n + C - 1) / C = n / C + 1 := by
  have hdm := Nat.div_add_mod' n C
  have hlt := Nat.mod_lt n hC
  apply Nat.div_eq_of_lt_le
  · rw [Nat.add_mul, Nat.one_mul]
    omega
  · simp only [Nat.succ_mul, Nat.add_mul, Nat.one_mul]
    omega

theorem ceil_div_of_dvd (C n : Nat) (hC : 0 < C) (h : n % C = 0) :
    (n + C - 1) / C = n / C := by
  have hdm := Nat.div_add_mod' n C
  apply Nat.div_eq_of_lt_le
  · omega
  · simp only [Nat.succ_mul]
    omega

/-- C6 as the code has it: on an open connection with chunk capacity `C ≥ 1`,
when the statement emits `n` rows and then signals `SQLITE_DONE`, the number
of chunks `rsqlite_eval` has allocated is `n / C + 1` (integer division): the
first chunk, and one more each time a chunk fills up. This is
`ceil(n / C) = (n + C - 1) / C` when `C` does not divide `n`, one more than
that when `C` divides `n` and `n > 0`, and 1 when `n = 0`. -/
theorem C6_chunks_allocated (c : connection) (h : sqlite3) (zSql : String)
    (rc0 : Int) (prog : Program) (m : String) (C n fuel : Nat)
    (hopen : c.db = some h) (hprep : h.compile zSql = (rc0, some prog, m))
    (hC : 1 ≤ C) (hbuf : c.bufsize = (C : Int))
    (hrows : ∀ i, i < n → prog.rc i = SQLITE_ROW) (hdone : prog.rc n = SQLITE_DONE)
    (hfuel : n < fuel) :
    (rsqlite_eval fuel c zSql).trace.count Call.allocBuf = n / C + 1 ∧
    (n % C ≠ 0 → (rsqlite_eval fuel c zSql).trace.count Call.allocBuf = (n + C - 1) / C) ∧
    (n % C = 0 → 0 < n →
      (rsqlite_eval fuel c zSql).trace.count Call.allocBuf = (n + C - 1) / C + 1) ∧
    (n = 0 → (rsqlite_eval fuel c zSql).trace.count Call.allocBuf = 1) := by
  obtain ⟨st, hinv, htrace, -⟩ :=
    eval_done c h zSql rc0 prog m C n fuel hopen hprep hC hbuf hrows hdone hfuel
  have hcount : (rsqlite_eval fuel c zSql).trace.count Call.allocBuf = n / C + 1 := by
    rw [htrace, ← (chain_length_eq_div prog C n st hinv).1]
    simp [hinv.allocs]
  refine ⟨hcount, ?_, ?_, ?_⟩
  · intro hnd
    rw [hcount, ceil_div_of_not_dvd C n (by omega) hnd]
  · intro hd _
    rw [hcount, ceil_div_of_dvd C n (by omega) hd]
  · intro h0
    rw [hcount, h0, Nat.zero_div]

/-- Witness of C6: seven rows with capacity 3 allocate `7 / 3 + 1 = 3` chunks. -/
theorem C6_witness :
    (∀ i, i < 7 → (sample_prog 7 SQLITE_DONE).rc i = SQLITE_ROW) ∧
    (sample_prog 7 SQLITE_DONE).rc 7 = SQLITE_DONE ∧
    (rsqlite_eval 8 (sample_conn 3 (sample_prog 7 SQLITE_DONE)) "SELECT x, y FROM t").trace.count
      Call.allocBuf = 7 / 3 + 1 :=
  ⟨by decide, by decide,
    (C6_chunks_allocated (sample_conn 3 (sample_prog 7 SQLITE_DONE))
      (sample_db (sample_prog 7 SQLITE_DONE)) "SELECT x, y FROM t" SQLITE_OK
      (sample_prog 7 SQLITE_DONE) "not an error" 3 7 8 rfl rfl (by decide) rfl
      (by decide) (by decide) (by decide)).1⟩

/-- Counterexample to C6 as stated: three rows with capacity 3. The cursor
emits exactly three rows, `rsqlite_eval` allocates two chunks (the second one
when the first fills up), and `ceil(3 / 3) = (3 + 3 - 1) / 3 = 1`. -/
theorem C6_counterexample :
    (∀ i, i < 3 → (sample_prog 3 SQLITE_DONE).rc i = SQLITE_ROW) ∧
    (sample_prog 3 SQLITE_DONE).rc 3 = SQLITE_DONE ∧
    (rsqlite_eval 4 (sample_conn 3 (sample_prog 3 SQLITE_DONE)) "SELECT x, y FROM t").trace
      = [Call.prepare, Call.allocBuf, Call.step, Call.step, Call.step, Call.allocBuf,
         Call.step, Call.finalize, Call.allocRes] ∧
    (rsqlite_eval 4 (sample_conn 3 (sample_prog 3 SQLITE_DONE)) "SELECT x, y FROM t").trace.count
      Call.allocBuf = 2 ∧
    (rsqlite_eval 4 (sample_conn 3 (sample_prog 3 SQLITE_DONE)) "SELECT x, y FROM t").trace.count
      Call.allocBuf ≠ (3 + 3 - 1) / 3 := by
  decide

/-- The spec's scenario evaluated: seven rows with capacity 3 leave three
chunks holding 3, 3 and 1 rows, with `count = 1` and `nrow = 7`. -/
theorem scenario_seven_rows :
    chunk_fills (while_loop 3 7
        (loop_init (some { prog := sample_prog 7 SQLITE_DONE, pc := 0 })
          (sample_db (sample_prog 7 SQLITE_DONE)) (List.replicate 3 none))).state = [3, 3, 1] ∧
    (while_loop 3 7
        (loop_init (some { prog := sample_prog 7 SQLITE_DONE, pc := 0 })
          (sample_db (sample_prog 7 SQLITE_DONE)) (List.replicate 3 none))).state.count = 1 ∧
    (while_loop 3 7
        (loop_init (some { prog := sample_prog 7 SQLITE_DONE, pc := 0 })
          (sample_db (sample_prog 7 SQLITE_DONE)) (List.replicate 3 none))).state.nrow = 7 := by
  decide

/-! ## C7: preparation failure -/

theorem eval_prepare_failure (c : connection) (h : sqlite3) (zSql : String) (rc0 : Int)
    (m : String) (C fuel : Nat)
    (hopen : c.db = some h) (hprep : h.compile zSql = (rc0, none, m))
    (hbuf : c.bufsize = (C : Int)) :
    (rsqlite_eval (fuel + 1) c zSql).trace
      = [Call.prepare, Call.allocBuf, Call.step, Call.finalize, Call.errmsg] ∧
    (rsqlite_eval (fuel + 1) c zSql).outcome = Outcome.error m := by
  rw [eval_open (fuel + 1) c h zSql rc0 none m C hopen hprep hbuf]
  simp only [Option.map_none', while_loop]
  rw [loop_body_null (C : Int) _ rfl]
  simp [eval_after_loop, loop_init]

/-- C7 evaluated at a failing preparation: the engine rejects
`SELECT * FROM nonexistent_table` (result code 1, no statement), the
connection is open with the default capacity 5000. `rsqlite_eval` raises the
engine's message and returns no collection, but only after it has allocated
the first chunk and called `sqlite3_step` on the null statement: the calls it
makes are prepare, chunk allocation, step, finalize, errmsg, in this order. -/
theorem C7_prepare_failure_is_surfaced_by_step :
    (sample_db (sample_prog 0 SQLITE_DONE)).compile "SELECT * FROM nonexistent_table"
      = (1, none, "no such table: nonexistent_table") ∧
    (rsqlite_eval 1 (sample_conn 5000 (sample_prog 0 SQLITE_DONE))
        "SELECT * FROM nonexistent_table").trace
      = [Call.prepare, Call.allocBuf, Call.step, Call.finalize, Call.errmsg] ∧
    (rsqlite_eval 1 (sample_conn 5000 (sample_prog 0 SQLITE_DONE))
        "SELECT * FROM nonexistent_table").outcome
      = Outcome.error "no such table: nonexistent_table" :=
  ⟨rfl, by decide, by decide⟩

/-! ## C8: closed connections -/

/-- C8: applying `rsqlite_disconnect` to a connection leaves it with a null
engine handle and its buffer size untouched; on that connection every
`rsqlite_eval` (any SQL text, any fuel), `rsqlite_dbinfo` and
`rsqlite_dblimit` fails with "The database connection is closed." and leaves
the connection as it was (so the same holds for every later call, and the
stored buffer size is unchanged by the failed `rsqlite_dblimit`);
`rsqlite_eval` fails before any engine call: its trace is empty, so no
statement is prepared. Disconnecting again changes nothing. -/
theorem C8_closed_connection_rejected (c : connection) :
    ∃ d, rsqlite_disconnect (some c) = some d ∧ d.db = none ∧ d.bufsize = c.bufsize ∧
      (∀ fuel zSql,
        (rsqlite_eval fuel d zSql).outcome = Outcome.error "The database connection is closed." ∧
        (rsqlite_eval fuel d zSql).trace = [] ∧
        (rsqlite_eval fuel d zSql).conn = d) ∧
      ((rsqlite_dbinfo d).outcome = Outcome.error "The database connection is closed." ∧
        (rsqlite_dbinfo d).conn = d) ∧
      (∀ limit,
        (rsqlite_dblimit d limit).outcome = Outcome.error "The database connection is closed." ∧
        (rsqlite_dblimit d limit).conn = d ∧
        (rsqlite_dblimit d limit).conn.bufsize = c.bufsize) ∧
      rsqlite_disconnect (some d) = some d := by
  refine ⟨{ c with db := none }, rfl, rfl, rfl, ?_, ?_, ?_, rfl⟩
  · intro fuel zSql
    simp [rsqlite_eval]
  · simp [rsqlite_dbinfo]
  · intro limit
    simp [rsqlite_dblimit]

/-! ## C9: the statement is finalized once -/

end Rsqlite
